import Mathlib

/-!
Verification of the task-manager script `scripts/spec_manager.py`.

The script manages markdown task files that live in three status
directories (`backlog`, `in-progress`, `completed`) under `specs/tasks/`.
Its logic is embedded shallowly:

* A Python string is a `List Char` (`Str` below); a concrete literal is
  written `"...".data`.  The Python primitives the script uses —
  `content.split('\n')`, `pat in s`, `line.split(pat)`, `s.strip()`,
  `s.startswith(p)`, slicing — are given executable structural
  definitions (`splitOnChar`, `containsSub`, `splitPiece1`, `trimStr`,
  `List.isPrefixOf`, `List.drop`) with the same semantics on the inputs
  the script feeds them.
* The filesystem is a map from a directory name (the status) to the
  list of `(filename, content)` pairs it holds, in the order
  `Path.glob` yields them.  A missing directory and an empty one are
  observationally identical in the script (both produce no glob
  matches), so both are the empty list.
* Functions that raise exceptions return `Option`/`Except`; mutation of
  the filesystem is explicit state passing; `datetime.now()` is an
  explicit parameter.
-/

namespace SpecManager

/-- A Python string: its list of characters. -/
abbrev Str := List Char

/-- Characters removed by Python `str.strip()` (the ASCII whitespace
the script's inputs can contain). -/
def isSpaceChar (c : Char) : Bool :=
  c = ' ' || c = '\t' || c = '\n' || c = '\r' || c = '\x0b' || c = '\x0c'

/-- Python `s.strip()`: drop whitespace from both ends. -/
def trimStr (s : Str) : Str :=
  ((s.dropWhile isSpaceChar).reverse.dropWhile isSpaceChar).reverse

/-- Python `s.split(sep)` for a single-character separator, as used for
`content.split('\n')`: empty pieces are kept and `""` splits to
`[""]`. -/
def splitOnChar (sep : Char) : Str → List Str
  | [] => [[]]
  | c :: rest =>
    match splitOnChar sep rest with
    | [] => if c = sep then [[], []] else [[c]]
    | p :: ps => if c = sep then [] :: p :: ps else (c :: p) :: ps

/-- Python substring containment `pat in s`: some suffix of `s` starts
with `pat`. -/
def containsSub : Str → Str → Bool
  | [], pat => pat.isEmpty
  | c :: rest, pat => pat.isPrefixOf (c :: rest) || containsSub rest pat

/-- The rest of `s` after the first occurrence of `pat`, when `pat`
occurs in `s`. -/
def afterFirst : Str → Str → Option Str
  | [], pat => if pat.isEmpty then some [] else none
  | c :: rest, pat =>
    if pat.isPrefixOf (c :: rest) then some (List.drop pat.length (c :: rest))
    else afterFirst rest pat

/-- The part of `s` before the first occurrence of `pat` (all of `s`
when `pat` does not occur). -/
def upToFirst : Str → Str → Str
  | [], _ => []
  | c :: rest, pat => if pat.isPrefixOf (c :: rest) then [] else c :: upToFirst rest pat

/-- Python `line.split(pat)[1]` for a `line` that contains `pat`:
`str.split` cuts at every non-overlapping occurrence left to right, so
piece `[1]` is the text after the first occurrence and before the
following occurrence when there is one, and the whole remainder
otherwise. -/
def splitPiece1 (line pat : Str) : Str :=
  upToFirst ((afterFirst line pat).getD []) pat

/-- Decimal digits of a Nat, fuelled so that it reduces in the kernel;
the fuel `n + 1` always suffices. -/
def natToStrAux : Nat → Nat → Str
  | 0, _ => []
  | fuel + 1, n =>
    if n < 10 then [Char.ofNat (48 + n)]
    else natToStrAux fuel (n / 10) ++ [Char.ofNat (48 + n % 10)]

/-- Python `str(n)` for a natural number. -/
def natToStr (n : Nat) : Str := natToStrAux (n + 1) n

/-- The filesystem: each status-directory name maps to its entries
(filename, content) in glob order. -/
def FS : Type := Str → List (Str × Str)

/-- The three recognized status directories, in the order
`get_task_details` searches them (spec_manager.py line 43). -/
def statusList : List Str := ["backlog".data, "in-progress".data, "completed".data]

/-- The glob pattern `f"{task_id}*.md"` of `get_task_details`
(spec_manager.py line 45): the filename starts with the queried id and
what follows ends in `.md`. -/
def matchesTaskGlob (task_id name : Str) : Bool :=
  task_id.isPrefixOf name && (".md".data).isSuffixOf (name.drop task_id.length)

/-- The glob pattern `TASK-*.md` of `list_tasks` (spec_manager.py
line 36). -/
def matchesTaskConvention (name : Str) : Bool :=
  ("TASK-".data).isPrefixOf name && (".md".data).isSuffixOf (name.drop 5)

/-- `list_tasks` (spec_manager.py lines 29-38): glob the status
directory for `TASK-*.md` and return `sorted(tasks)`.  A missing
directory is the empty list here, so the result there is `[]`, exactly
as the early return of line 33 produces. -/
def list_tasks (fs : FS) (status : Str) : List Str :=
  List.insertionSort (fun a b : Str => a ≤ b)
    (((fs status).map Prod.fst).filter matchesTaskConvention)

/-- Priority extraction of `get_task_details` (spec_manager.py
lines 56-64): containment checks in fixed precedence, default `P3`. -/
def parsePriority (content : Str) : Str :=
  if containsSub content ("Priority: P0".data) then "P0".data
  else if containsSub content ("Priority: P1".data) then "P1".data
  else if containsSub content ("Priority: P2".data) then "P2".data
  else "P3".data

/-- Dependency extraction of `get_task_details` (spec_manager.py
lines 66-71): when the content contains `Depends on:`, take the first
line containing it and return `line.split("Depends on:")[1].strip()`.
The `[]` branch is unreachable: the marker holds no newline, so a
content that contains it has a line that does. -/
def parseDependencies (content : Str) : Option Str :=
  if containsSub content ("Depends on:".data) then
    match (splitOnChar '\n' content).filter
        (fun l => containsSub l ("Depends on:".data)) with
    | [] => none
    | d :: _ => some (trimStr (splitPiece1 d ("Depends on:".data)))
  else none

/-- One iteration of the acceptance-criteria loop of
`validate_implementation` (spec_manager.py lines 142-150).  The state
is (criteria collected so far, the `criteria_section` flag). -/
def criteriaStep (st : List Str × Bool) (line : Str) : List Str × Bool :=
  if containsSub line ("Acceptance Criteria".data) then (st.1, true)
  else if st.2 && ("- [ ]".data).isPrefixOf (trimStr line) then
    (st.1 ++ [trimStr (List.drop 5 (trimStr line))], st.2)
  else if st.2 && !(trimStr line).isEmpty && !(['-'].isPrefixOf (trimStr line)) then
    (st.1, false)
  else st

/-- The acceptance-criteria loop over a list of lines, with its final
state (collected criteria, flag). -/
def parseCriteriaLines (lines : List Str) : List Str × Bool :=
  lines.foldl criteriaStep ([], false)

/-- Acceptance-criteria extraction of `validate_implementation`
(spec_manager.py lines 137-150). -/
def parseAcceptanceCriteria (content : Str) : List Str :=
  (parseCriteriaLines (splitOnChar '\n' content)).1

/-- First `(filename, content)` entry of a directory that matches the
task-id glob: the first match `status_dir.glob(f"{task_id}*.md")`
yields. -/
def findInDir (task_id : Str) (entries : List (Str × Str)) : Option (Str × Str) :=
  entries.find? (fun e => matchesTaskGlob task_id e.1)

/-- The search loop of `get_task_details` (spec_manager.py
lines 43-73): scan backlog, then in-progress, then completed, and stop
at the first file whose name matches the glob.  Returns
(status, filename, content); `none` models the `ValueError` of
line 75. -/
def lookupTask (fs : FS) (task_id : Str) : Option (Str × Str × Str) :=
  statusList.findSome? fun status =>
    (findInDir task_id (fs status)).map fun e => (status, e.1, e.2)

/-- The dictionary `get_task_details` returns (spec_manager.py
lines 49-71): `priority` is always present, `dependencies` only when
the marker occurs. -/
structure TaskDetails where
  id : Str
  status : Str
  file : Str
  content : Str
  priority : Str
  dependencies : Option Str
deriving Repr, DecidableEq

/-- `get_task_details` (spec_manager.py lines 40-75).  The `id` field
is set to the queried `task_id` string (line 50), not to anything
derived from the matched filename; `file` is the path of the matched
file. -/
def get_task_details (fs : FS) (task_id : Str) : Option TaskDetails :=
  (lookupTask fs task_id).map fun t =>
    { id := task_id
      status := t.1
      file := "specs/tasks/".data ++ t.1 ++ ['/'] ++ t.2.1
      content := t.2.2
      priority := parsePriority t.2.2
      dependencies := parseDependencies t.2.2 }

/-- Removal of a file from a directory listing; a real directory holds
at most one entry per name, and `shutil.move` removes the source
path. -/
def removeFile (entries : List (Str × Str)) (name : Str) : List (Str × Str) :=
  entries.filter (fun e => e.1 != name)

/-- Update one directory of the filesystem. -/
def setDir (fs : FS) (d : Str) (l : List (Str × Str)) : FS :=
  fun s => if s = d then l else fs s

/-- `move_task` (spec_manager.py lines 77-91): look the task up (the
`ValueError` of the lookup propagates before any mutation), create the
destination directory if needed (a no-op in this model, where a
missing directory is an empty one), then `shutil.move` the file: it
disappears from the old directory and lands, under its unchanged name,
in the new one (overwriting a same-named destination entry, as
`os.rename` does).  The `ok` payload is the confirmation message of
line 90. -/
def move_task (fs : FS) (task_id new_status : Str) : FS × Except Str Str :=
  match lookupTask fs task_id with
  | none => (fs, Except.error ("Task not found: ".data ++ task_id))
  | some (old_status, name, content) =>
    let fs1 := setDir fs old_status (removeFile (fs old_status) name)
    let fs2 := setDir fs1 new_status
      (removeFile (fs1 new_status) name ++ [(name, content)])
    (fs2, Except.ok ("Moved ".data ++ task_id ++ " from ".data ++ old_status
      ++ " to ".data ++ new_status))

/-- `update_task_status` (spec_manager.py lines 158-163): reject a
status outside the closed set before calling `move_task`; the
`ValueError` message is that of line 161, and the filesystem component
of the result is returned untouched. -/
def update_task_status (fs : FS) (task_id status : Str) : FS × Except Str Str :=
  if status ∈ statusList then move_task fs task_id status
  else (fs, Except.error ("Invalid status: ".data ++ status))

/-- The dictionary `validate_implementation` returns (spec_manager.py
lines 129-154). -/
structure ValidationResult where
  task_id : Str
  timestamp : Str
  criteria_met : List Str
  criteria_failed : List Str
  warnings : List Str
  criteria : List Str
  needs_manual_review : Bool
deriving Repr, DecidableEq

/-- `validate_implementation` (spec_manager.py lines 126-156).  The
wall-clock timestamp `datetime.now().isoformat()` is the explicit
parameter `now`; the `implementation_path` parameter is accepted and,
as in the source, never read. -/
def validate_implementation (fs : FS) (task_id : Str)
    (implementation_path : Str) (now : Str) : Option ValidationResult :=
  (lookupTask fs task_id).map fun t =>
    { task_id := task_id
      timestamp := now
      criteria_met := []
      criteria_failed := []
      warnings := []
      criteria := parseAcceptanceCriteria t.2.2
      needs_manual_review := true }

/-- Python `f"{(completed/total)*100:.1f}"` of `create_progress_report`
(spec_manager.py lines 184-185), with `total > 0`: the percentage in
tenths, rounded half to even on the exact rational value.  This agrees
with the printed IEEE-double format wherever the double computation is
exact (in particular at every input a claim evaluates it on, such as
1 of 4, where the value 25.0 is exact). -/
def formatPercent1 (completed total : Nat) : Str :=
  let num := completed * 1000
  let q := num / total
  let r := num % total
  let t :=
    if total < 2 * r then q + 1
    else if 2 * r < total then q
    else if q % 2 = 1 then q + 1 else q
  natToStr (t / 10) ++ ".".data ++ natToStr (t % 10)

/-- The summary block of `create_progress_report` (spec_manager.py
lines 175-179). -/
def reportSummary (b i c : Nat) : Str :=
  "## Summary\n".data
  ++ "- Backlog: ".data ++ natToStr b ++ " tasks\n".data
  ++ "- In Progress: ".data ++ natToStr i ++ " tasks\n".data
  ++ "- Completed: ".data ++ natToStr c ++ " tasks\n".data
  ++ "- Total: ".data ++ natToStr (b + i + c) ++ " tasks\n\n".data

/-- The completion-percentage line of `create_progress_report`
(spec_manager.py lines 182-185): appended only when `total > 0`. -/
def completionPart (completed total : Nat) : Str :=
  if 0 < total then
    "**Completion: ".data ++ formatPercent1 completed total ++ "%**\n\n".data
  else []

/-- The "In Progress" section (spec_manager.py lines 188-193), emitted
only when the list is non-empty. -/
def sectionInProgress (l : List Str) : Str :=
  if l.isEmpty then []
  else "## In Progress\n".data
    ++ (l.map (fun t => "- ".data ++ t ++ "\n".data)).flatten ++ "\n".data

/-- The "Backlog (Next Up)" section (spec_manager.py lines 195-202):
first five entries, then a remainder count when more than five. -/
def sectionBacklog (l : List Str) : Str :=
  if l.isEmpty then []
  else "## Backlog (Next Up)\n".data
    ++ ((l.take 5).map (fun t => "- ".data ++ t ++ "\n".data)).flatten
    ++ (if 5 < l.length then "- ...and ".data ++ natToStr (l.length - 5) ++ " more\n".data
        else [])
    ++ "\n".data

/-- The "Recently Completed" section (spec_manager.py lines 204-208):
the last five entries in listed order. -/
def sectionCompleted (l : List Str) : Str :=
  if l.isEmpty then []
  else "## Recently Completed\n".data
    ++ ((l.drop (l.length - 5)).map (fun t => "- ✅ ".data ++ t ++ "\n".data)).flatten
    ++ "\n".data

/-- `create_progress_report` (spec_manager.py lines 165-210): the
sequence of `report +=` steps, with `datetime.now().strftime(...)` as
the explicit parameter `now`.  (The loop-local `task_id = task.split('-')[1]`
of lines 191 and 198 is computed and never used, so it has no
observable effect and is omitted.) -/
def create_progress_report (fs : FS) (now : Str) : Str :=
  "# Task Progress Report\n\nGenerated: ".data ++ now ++ "\n\n".data
  ++ reportSummary (list_tasks fs ("backlog".data)).length
      (list_tasks fs ("in-progress".data)).length
      (list_tasks fs ("completed".data)).length
  ++ completionPart (list_tasks fs ("completed".data)).length
      ((list_tasks fs ("backlog".data)).length
        + (list_tasks fs ("in-progress".data)).length
        + (list_tasks fs ("completed".data)).length)
  ++ sectionInProgress (list_tasks fs ("in-progress".data))
  ++ sectionBacklog (list_tasks fs ("backlog".data))
  ++ sectionCompleted (list_tasks fs ("completed".data))

/-- Modelled from the spec, for comparison only (claim C5): "the
matched identifier token ... the TASK-<token> prefix of the file's
name": the text of the filename up to (and excluding) its second dash,
e.g. `TASK-10` for `TASK-10-foo.md`. -/
def specTokenOfFilename (name : Str) : Str :=
  match splitOnChar '-' name with
  | a :: b :: _ => a ++ ['-'] ++ b
  | _ => name

end SpecManager

namespace SpecManager

/-! ## Concrete stores used by the witnesses and counterexamples -/

/-- A store with the single backlog file `TASK-10-foo.md` (claim C5). -/
def fsC5 : FS := fun s =>
  if s = "backlog".data then [("TASK-10-foo.md".data, "stuff".data)] else []

/-- A store with one backlog task holding two checklist items (claim C6). -/
def fsC6 : FS := fun s =>
  if s = "backlog".data then
    [("TASK-001-a.md".data, "## Acceptance Criteria\n- [ ] Do X\n- [ ] Do Y".data)]
  else []

/-- A store with 2 backlog, 1 in-progress and 1 completed task (claim C2). -/
def fsC2 : FS := fun s =>
  if s = "backlog".data then
    [("TASK-001-a.md".data, "x".data), ("TASK-002-b.md".data, "x".data)]
  else if s = "in-progress".data then [("TASK-003-c.md".data, "x".data)]
  else if s = "completed".data then [("TASK-004-d.md".data, "x".data)]
  else []

/-- A store whose backlog holds one matching task file and one
non-matching file (claim C8). -/
def fsC8 : FS := fun s =>
  if s = "backlog".data then
    [("TASK-001-a.md".data, "hello".data), ("notes.txt".data, "n".data)]
  else []

/-! ## General helper lemmas about the embedded operations -/

theorem setDir_apply (fs : FS) (d : Str) (l : List (Str × Str)) (s : Str) :
    setDir fs d l s = if s = d then l else fs s := rfl

theorem find?_of_filter_singleton {α : Type} {p : α → Bool} :
    ∀ {l : List α} {a : α}, l.filter p = [a] → l.find? p = some a := by
  intro l
  induction l with
  | nil => intro a h; simp at h
  | cons x xs ih =>
    intro a h
    cases hx : p x with
    | true =>
      rw [List.filter_cons_of_pos hx] at h
      injection h with h1 h2
      rw [List.find?_cons_of_pos _ hx, h1]
    | false =>
      rw [List.filter_cons_of_neg (by simp [hx])] at h
      rw [List.find?_cons_of_neg _ (by simp [hx])]
      exact ih h

theorem find?_none_of_filter_nil {α : Type} {p : α → Bool} :
    ∀ {l : List α}, l.filter p = [] → l.find? p = none := by
  intro l
  induction l with
  | nil => intro h; rfl
  | cons x xs ih =>
    intro h
    cases hx : p x with
    | true => rw [List.filter_cons_of_pos hx] at h; simp at h
    | false =>
      rw [List.filter_cons_of_neg (by simp [hx])] at h
      rw [List.find?_cons_of_neg _ (by simp [hx])]
      exact ih h

theorem filter_eq_cons_of_find? {α : Type} {p : α → Bool} :
    ∀ {l : List α} {a : α}, l.find? p = some a → ∃ t, l.filter p = a :: t := by
  intro l
  induction l with
  | nil => intro a h; simp [List.find?] at h
  | cons x xs ih =>
    intro a h
    cases hx : p x with
    | true =>
      rw [List.find?_cons_of_pos _ hx] at h
      injection h with h1
      exact ⟨xs.filter p, by rw [List.filter_cons_of_pos hx, h1]⟩
    | false =>
      rw [List.find?_cons_of_neg _ (by simp [hx])] at h
      obtain ⟨t, ht⟩ := ih h
      exact ⟨t, by rw [List.filter_cons_of_neg (by simp [hx])]; exact ht⟩

theorem filter_swap {α : Type} (p q : α → Bool) (l : List α) :
    (l.filter q).filter p = (l.filter p).filter q := by
  simp [List.filter_filter, Bool.and_comm]

theorem findSome?_mem {α β : Type} (f : α → Option β) :
    ∀ {l : List α} {b : β}, l.findSome? f = some b → ∃ a ∈ l, f a = some b := by
  intro l
  induction l with
  | nil => intro b h; simp [List.findSome?] at h
  | cons x xs ih =>
    intro b h
    rw [List.findSome?_cons] at h
    cases hx : f x with
    | some y =>
      rw [hx] at h
      exact ⟨x, List.mem_cons_self x xs, by rw [hx]; exact h⟩
    | none =>
      rw [hx] at h
      obtain ⟨a, ha, hfa⟩ := ih h
      exact ⟨a, List.mem_cons_of_mem x ha, hfa⟩

theorem lookup_of_unique (fs : FS) (task_id A name c : Str)
    (hA : A ∈ statusList)
    (h1 : (fs A).filter (fun e => matchesTaskGlob task_id e.1) = [(name, c)])
    (h2 : ∀ s ∈ statusList, s ≠ A →
      (fs s).filter (fun e => matchesTaskGlob task_id e.1) = []) :
    lookupTask fs task_id = some (A, name, c) := by
  have hfind : findInDir task_id (fs A) = some (name, c) :=
    find?_of_filter_singleton h1
  have hnone : ∀ s ∈ statusList, s ≠ A → findInDir task_id (fs s) = none :=
    fun s hs hne => find?_none_of_filter_nil (h2 s hs hne)
  simp only [statusList, List.mem_cons, List.not_mem_nil, or_false] at hA
  rcases hA with hA | hA | hA <;> subst hA
  · simp [lookupTask, statusList, List.findSome?_cons, hfind]
  · have hb : findInDir task_id (fs ("backlog".data)) = none :=
      hnone ("backlog".data) (by simp [statusList]) (by decide)
    simp [lookupTask, statusList, List.findSome?_cons, hfind, hb]
  · have hb : findInDir task_id (fs ("backlog".data)) = none :=
      hnone ("backlog".data) (by simp [statusList]) (by decide)
    have hi : findInDir task_id (fs ("in-progress".data)) = none :=
      hnone ("in-progress".data) (by simp [statusList]) (by decide)
    simp [lookupTask, statusList, List.findSome?_cons, hfind, hb, hi]

theorem criteriaStep_fst_of_false (acc : List Str) (line : Str) :
    (criteriaStep (acc, false) line).1 = acc := by
  unfold criteriaStep
  split
  · rfl
  · simp

theorem criteriaStep_fst_mono (st : List Str × Bool) (line : Str) :
    ∃ t, (criteriaStep st line).1 = st.1 ++ t := by
  unfold criteriaStep
  split
  · exact ⟨[], (List.append_nil _).symm⟩
  split
  · exact ⟨_, rfl⟩
  split
  · exact ⟨[], (List.append_nil _).symm⟩
  · exact ⟨[], (List.append_nil _).symm⟩

theorem foldl_criteriaStep_mem {x : Str} (lines : List Str) (st : List Str × Bool)
    (h : x ∈ st.1) : x ∈ (List.foldl criteriaStep st lines).1 := by
  induction lines generalizing st with
  | nil => simpa using h
  | cons l ls ih =>
    rw [List.foldl_cons]
    apply ih
    obtain ⟨t, ht⟩ := criteriaStep_fst_mono st l
    rw [ht]
    exact List.mem_append_left _ h

theorem upToFirst_eq_of_not_contains :
    ∀ {s pat : Str}, containsSub s pat = false → upToFirst s pat = s := by
  intro s
  induction s with
  | nil => intro pat _; rfl
  | cons c rest ih =>
    intro pat h
    unfold containsSub at h
    rw [Bool.or_eq_false_iff] at h
    unfold upToFirst
    rw [if_neg (by simp [h.1]), ih h.2]

theorem lookup_glob (fs : FS) (task_id st name c : Str)
    (h : lookupTask fs task_id = some (st, name, c)) :
    matchesTaskGlob task_id name = true := by
  unfold lookupTask at h
  obtain ⟨s, _, hfs⟩ := findSome?_mem _ h
  cases hfd : findInDir task_id (fs s) with
  | none => rw [hfd] at hfs; simp at hfs
  | some e =>
    rw [hfd] at hfs
    simp only [Option.map_some'] at hfs
    injection hfs with hfs
    unfold findInDir at hfd
    have hglob := List.find?_some hfd
    have hname : e.1 = name := by
      have := congrArg (fun t : Str × Str × Str => t.2.1) hfs
      simpa using this
    simp only [hname] at hglob
    exact hglob

end SpecManager

namespace SpecManager

theorem box_not_isPrefixOf_of_dash {t : Str}
    (h : (['-'].isPrefixOf t) = false) : ("- [ ]".data).isPrefixOf t = false := by
  cases t with
  | nil => rfl
  | cons a b =>
    simp only [List.isPrefixOf, List.isPrefixOf_nil_left, Bool.and_true] at h
    show (('-' == a) && _) = false
    rw [h]
    rfl

/-- C1: the claim states that once the criteria flag has been cleared, a
later line containing "Acceptance Criteria" does not re-arm it, so items
after a second heading are never captured.  The code re-arms: the
heading test at the top of the loop sets the flag on every line that
contains the substring.  This counterexample runs the loop over a
document whose flag is cleared by the paragraph `stop` (first conjunct)
and shows the item after the second heading captured anyway (second
conjunct). -/
theorem C1_counterexample :
    (parseCriteriaLines
      ["Acceptance Criteria".data, "- [ ] a".data, "stop".data]).2 = false
    ∧ "b".data ∈ parseAcceptanceCriteria
        ("Acceptance Criteria\n- [ ] a\nstop\nAcceptance Criteria\n- [ ] b".data) := by
  decide

/-- C1 (amended): every line containing "Acceptance Criteria" (re-)arms
the criteria flag, whatever state the preceding lines left it in, so a
checklist item directly after any such heading line is always captured
— in particular after a second heading that follows a cleared block. -/
theorem C1_heading_rearms (content : Str) (ls1 ls2 : List Str) (h item : Str)
    (hsplit : splitOnChar '\n' content = ls1 ++ h :: item :: ls2)
    (hh : containsSub h ("Acceptance Criteria".data) = true)
    (hitem1 : containsSub item ("Acceptance Criteria".data) = false)
    (hitem2 : ("- [ ]".data).isPrefixOf (trimStr item) = true) :
    trimStr (List.drop 5 (trimStr item)) ∈ parseAcceptanceCriteria content := by
  unfold parseAcceptanceCriteria parseCriteriaLines
  rw [hsplit, List.foldl_append, List.foldl_cons, List.foldl_cons]
  have hstep1 : criteriaStep (List.foldl criteriaStep ([], false) ls1) h
      = ((List.foldl criteriaStep ([], false) ls1).1, true) := by
    unfold criteriaStep
    rw [if_pos hh]
  rw [hstep1]
  have hstep2 : criteriaStep ((List.foldl criteriaStep ([], false) ls1).1, true) item
      = ((List.foldl criteriaStep ([], false) ls1).1
          ++ [trimStr (List.drop 5 (trimStr item))], true) := by
    unfold criteriaStep
    rw [if_neg (by simp [hitem1]), if_pos (by simp [hitem2])]
  rw [hstep2]
  exact foldl_criteriaStep_mem ls2 _
    (List.mem_append_right _ (List.mem_singleton_self _))

/-- C1 witness: the amended theorem applied to the counterexample
document, whose first block is cleared by the paragraph `stop` before
the second heading re-arms the flag. -/
theorem C1_heading_rearms_witness :
    trimStr (List.drop 5 (trimStr ("- [ ] b".data))) ∈ parseAcceptanceCriteria
      ("Acceptance Criteria\n- [ ] a\nstop\nAcceptance Criteria\n- [ ] b".data) :=
  C1_heading_rearms _
    ["Acceptance Criteria".data, "- [ ] a".data, "stop".data] []
    ("Acceptance Criteria".data) ("- [ ] b".data)
    (by decide) (by decide) (by decide) (by decide)

/-- C3: the claim states that for a document of shape heading, three
checkbox lines, a blank line, a fourth checkbox line, a paragraph, a
fifth checkbox line, exactly the first three criteria are captured.
The code captures four: the blank line does not clear the flag, so the
fourth item (before the paragraph) is also captured. -/
theorem C3_counterexample :
    parseAcceptanceCriteria
        ("## Acceptance Criteria\n- [ ] One\n- [ ] Two\n- [ ] Three\n\n- [ ] Four\nThis paragraph ends the block.\n- [ ] Five".data)
      = ["One".data, "Two".data, "Three".data, "Four".data]
    ∧ parseAcceptanceCriteria
        ("## Acceptance Criteria\n- [ ] One\n- [ ] Two\n- [ ] Three\n\n- [ ] Four\nThis paragraph ends the block.\n- [ ] Five".data)
      ≠ ["One".data, "Two".data, "Three".data] := by
  decide

/-- C3 (amended): for a document of shape heading, three checkbox
lines, a blank line, a fourth checkbox line, a non-list paragraph, a
fifth checkbox line, the parser captures exactly the first FOUR
criteria: the blank line does not terminate the block (so the item
after it is captured), the paragraph does, and the item after the
terminating paragraph is not captured. -/
theorem C3_captures_four (content h l1 l2 l3 l4 p l5 : Str)
    (hsplit : splitOnChar '\n' content = [h, l1, l2, l3, [], l4, p, l5])
    (hh : containsSub h ("Acceptance Criteria".data) = true)
    (h1c : containsSub l1 ("Acceptance Criteria".data) = false)
    (h1s : ("- [ ]".data).isPrefixOf (trimStr l1) = true)
    (h2c : containsSub l2 ("Acceptance Criteria".data) = false)
    (h2s : ("- [ ]".data).isPrefixOf (trimStr l2) = true)
    (h3c : containsSub l3 ("Acceptance Criteria".data) = false)
    (h3s : ("- [ ]".data).isPrefixOf (trimStr l3) = true)
    (h4c : containsSub l4 ("Acceptance Criteria".data) = false)
    (h4s : ("- [ ]".data).isPrefixOf (trimStr l4) = true)
    (hpc : containsSub p ("Acceptance Criteria".data) = false)
    (hpe : (trimStr p).isEmpty = false)
    (hpd : (['-'].isPrefixOf (trimStr p)) = false) :
    parseAcceptanceCriteria content =
      [trimStr (List.drop 5 (trimStr l1)), trimStr (List.drop 5 (trimStr l2)),
       trimStr (List.drop 5 (trimStr l3)), trimStr (List.drop 5 (trimStr l4))] := by
  have scap : ∀ (acc : List Str) (l : Str),
      containsSub l ("Acceptance Criteria".data) = false →
      ("- [ ]".data).isPrefixOf (trimStr l) = true →
      criteriaStep (acc, true) l = (acc ++ [trimStr (List.drop 5 (trimStr l))], true) := by
    intro acc l hc hs
    unfold criteriaStep
    rw [if_neg (by simp [hc]), if_pos (by simp [hs])]
  have sblank : ∀ acc : List Str, criteriaStep (acc, true) ([] : Str) = (acc, true) := by
    have c1 : containsSub ([] : Str) ("Acceptance Criteria".data) = false := by decide
    have c2 : ("- [ ]".data).isPrefixOf (trimStr ([] : Str)) = false := by decide
    have c3 : (trimStr ([] : Str)).isEmpty = true := by decide
    intro acc
    unfold criteriaStep
    rw [if_neg (by simp [c1]), if_neg (by simp [c2]), if_neg (by simp [c3])]
  have spar : ∀ acc : List Str, criteriaStep (acc, true) p = (acc, false) := by
    intro acc
    unfold criteriaStep
    rw [if_neg (by simp [hpc]),
      if_neg (by simp [box_not_isPrefixOf_of_dash hpd]),
      if_pos (by simp [hpe, hpd])]
  unfold parseAcceptanceCriteria parseCriteriaLines
  rw [hsplit]
  simp only [List.foldl_cons, List.foldl_nil]
  have s0 : criteriaStep ([], false) h = ([], true) := by
    unfold criteriaStep
    rw [if_pos hh]
  rw [s0, scap _ _ h1c h1s, scap _ _ h2c h2s, scap _ _ h3c h3s, sblank,
    scap _ _ h4c h4s, spar, criteriaStep_fst_of_false]
  simp

/-- C3 witness: the amended theorem applied to the concrete document of
the claim's shape; the result is the four criteria One..Four. -/
theorem C3_captures_four_witness :
    parseAcceptanceCriteria
        ("## Acceptance Criteria\n- [ ] One\n- [ ] Two\n- [ ] Three\n\n- [ ] Four\nThis paragraph ends the block.\n- [ ] Five".data)
      = [trimStr (List.drop 5 (trimStr ("- [ ] One".data))),
         trimStr (List.drop 5 (trimStr ("- [ ] Two".data))),
         trimStr (List.drop 5 (trimStr ("- [ ] Three".data))),
         trimStr (List.drop 5 (trimStr ("- [ ] Four".data)))] :=
  C3_captures_four _ ("## Acceptance Criteria".data) ("- [ ] One".data)
    ("- [ ] Two".data) ("- [ ] Three".data) ("- [ ] Four".data)
    ("This paragraph ends the block.".data) ("- [ ] Five".data)
    (by decide) (by decide) (by decide) (by decide) (by decide) (by decide)
    (by decide) (by decide) (by decide) (by decide) (by decide) (by decide)
    (by decide)

end SpecManager

namespace SpecManager

/-- C4: the claim states that the dependency parser returns the entire
remainder of the first matching line after the first occurrence of
`Depends on:`, trimmed.  When the substring occurs twice on that line,
Python `split(...)[1]` returns only the text between the first and the
second occurrence: here the claim would require `A Depends on: B` while
the code yields `A`. -/
theorem C4_counterexample :
    parseDependencies ("Depends on: A Depends on: B".data) = some ("A".data)
    ∧ parseDependencies ("Depends on: A Depends on: B".data)
        ≠ some ("A Depends on: B".data) := by
  decide

/-- C4 (amended): when some line contains `Depends on:`, the parser
takes the first such line `l` (in document order) and returns, trimmed,
the piece of `l` after the first occurrence of the substring and before
the next occurrence — which is the entire remainder exactly when the
substring occurs only once in `l` (second conjunct); when the content
does not contain the substring, no dependencies field is produced
(third conjunct). -/
theorem C4_first_line_between_occurrences (content c2 l : Str)
    (h1 : containsSub content ("Depends on:".data) = true)
    (h2 : (splitOnChar '\n' content).find?
        (fun s => containsSub s ("Depends on:".data)) = some l)
    (h3 : containsSub c2 ("Depends on:".data) = false) :
    parseDependencies content = some (trimStr (splitPiece1 l ("Depends on:".data)))
    ∧ (∀ r, afterFirst l ("Depends on:".data) = some r →
        containsSub r ("Depends on:".data) = false →
        parseDependencies content = some (trimStr r))
    ∧ parseDependencies c2 = none := by
  obtain ⟨t, ht⟩ := filter_eq_cons_of_find? h2
  refine ⟨?_, ?_, ?_⟩
  · unfold parseDependencies
    rw [if_pos h1, ht]
  · intro r hr hnr
    unfold parseDependencies
    rw [if_pos h1, ht]
    show some (trimStr (splitPiece1 l ("Depends on:".data))) = some (trimStr r)
    unfold splitPiece1
    rw [hr, Option.getD_some, upToFirst_eq_of_not_contains hnr]
  · unfold parseDependencies
    rw [if_neg (by simp [h3])]

/-- C4 witness: the amended theorem at a document whose second and
fourth lines contain the marker; the first matching line is selected
and, the marker occurring once there, its whole trimmed remainder
`TASK-003` is returned; a document with no marker yields none. -/
theorem C4_first_line_between_occurrences_witness :
    parseDependencies ("Title\nDepends on: TASK-003\nBody\nDepends on: TASK-009".data)
      = some (trimStr (splitPiece1 ("Depends on: TASK-003".data) ("Depends on:".data)))
    ∧ (∀ r, afterFirst ("Depends on: TASK-003".data) ("Depends on:".data) = some r →
        containsSub r ("Depends on:".data) = false →
        parseDependencies ("Title\nDepends on: TASK-003\nBody\nDepends on: TASK-009".data)
          = some (trimStr r))
    ∧ parseDependencies ("plain text".data) = none :=
  C4_first_line_between_occurrences _ ("plain text".data)
    ("Depends on: TASK-003".data) (by decide) (by decide) (by decide)

/-- C5: the claim states that the `id` attribute of the returned task
equals the `TASK-<token>` identifier derived from the matched filename,
also when the queried id is a strict prefix of that token.  The code
stores the queried string itself: querying `TASK-1` against the file
`TASK-10-foo.md` matches by glob yet returns id `TASK-1`, not the
filename token `TASK-10`. -/
theorem C5_counterexample :
    (get_task_details fsC5 ("TASK-1".data)).map (fun d => d.id)
      = some ("TASK-1".data)
    ∧ (get_task_details fsC5 ("TASK-1".data)).map (fun d => d.file)
      = some ("specs/tasks/backlog/TASK-10-foo.md".data)
    ∧ specTokenOfFilename ("TASK-10-foo.md".data) = "TASK-10".data
    ∧ ("TASK-1".data : Str) ≠ "TASK-10".data := by
  decide

/-- C5 (amended): whenever the lookup finds a matching file, the `id`
attribute of the returned task equals the queried id string; the
matched filename merely has that string as a prefix (and ends in
`.md`), so whenever the query is a strict prefix of the filename's
token the returned id differs from that token. -/
theorem C5_id_is_query (fs : FS) (task_id : Str) (d : TaskDetails)
    (h : get_task_details fs task_id = some d) :
    d.id = task_id
    ∧ ∃ st name c, lookupTask fs task_id = some (st, name, c)
        ∧ matchesTaskGlob task_id name = true
        ∧ d.content = c
        ∧ d.file = "specs/tasks/".data ++ st ++ ['/'] ++ name := by
  unfold get_task_details at h
  cases hl : lookupTask fs task_id with
  | none => rw [hl] at h; simp at h
  | some t =>
    obtain ⟨st, name, c⟩ := t
    rw [hl] at h
    simp only [Option.map_some'] at h
    injection h with h
    refine ⟨by rw [← h], st, name, c, rfl, lookup_glob fs task_id st name c hl,
      by rw [← h], by rw [← h]⟩

/-- C5 witness: the amended theorem at the one-file store `fsC5` and
query `TASK-1`, a strict prefix of the filename token `TASK-10`. -/
theorem C5_id_is_query_witness :
    ({ id := "TASK-1".data, status := "backlog".data,
       file := "specs/tasks/backlog/TASK-10-foo.md".data,
       content := "stuff".data, priority := "P3".data,
       dependencies := none : TaskDetails }).id = "TASK-1".data
    ∧ ∃ st name c, lookupTask fsC5 ("TASK-1".data) = some (st, name, c)
        ∧ matchesTaskGlob ("TASK-1".data) name = true
        ∧ ({ id := "TASK-1".data, status := "backlog".data,
             file := "specs/tasks/backlog/TASK-10-foo.md".data,
             content := "stuff".data, priority := "P3".data,
             dependencies := none : TaskDetails }).content = c
        ∧ ({ id := "TASK-1".data, status := "backlog".data,
             file := "specs/tasks/backlog/TASK-10-foo.md".data,
             content := "stuff".data, priority := "P3".data,
             dependencies := none : TaskDetails }).file
            = "specs/tasks/".data ++ st ++ ['/'] ++ name :=
  C5_id_is_query fsC5 ("TASK-1".data) _ (by decide)

/-- C6: for every task the lookup resolves and every implementation
path, the validation result carries the parsed acceptance-criteria
list of the task's content, has `needs_manual_review` true and empty
`criteria_met` and `criteria_failed` lists: the stub never reports a
hard pass/fail judgment. -/
theorem C6_validate_defers (fs : FS) (task_id path now : Str) (r : ValidationResult)
    (h : validate_implementation fs task_id path now = some r) :
    r.needs_manual_review = true ∧ r.criteria_met = [] ∧ r.criteria_failed = []
    ∧ ∃ st name c, lookupTask fs task_id = some (st, name, c)
        ∧ r.criteria = parseAcceptanceCriteria c := by
  unfold validate_implementation at h
  cases hl : lookupTask fs task_id with
  | none => rw [hl] at h; simp at h
  | some t =>
    obtain ⟨st, name, c⟩ := t
    rw [hl] at h
    simp only [Option.map_some'] at h
    injection h with h
    exact ⟨by rw [← h], by rw [← h], by rw [← h], st, name, c, rfl, by rw [← h]⟩

/-- C6 witness: the theorem at a one-file store whose task holds two
checklist items. -/
theorem C6_validate_defers_witness :
    ({ task_id := "TASK-001".data, timestamp := "t0".data, criteria_met := [],
       criteria_failed := [], warnings := [],
       criteria := ["Do X".data, "Do Y".data],
       needs_manual_review := true : ValidationResult }).needs_manual_review = true
    ∧ ({ task_id := "TASK-001".data, timestamp := "t0".data, criteria_met := [],
         criteria_failed := [], warnings := [],
         criteria := ["Do X".data, "Do Y".data],
         needs_manual_review := true : ValidationResult }).criteria_met = []
    ∧ ({ task_id := "TASK-001".data, timestamp := "t0".data, criteria_met := [],
         criteria_failed := [], warnings := [],
         criteria := ["Do X".data, "Do Y".data],
         needs_manual_review := true : ValidationResult }).criteria_failed = []
    ∧ ∃ st name c, lookupTask fsC6 ("TASK-001".data) = some (st, name, c)
        ∧ ({ task_id := "TASK-001".data, timestamp := "t0".data, criteria_met := [],
             criteria_failed := [], warnings := [],
             criteria := ["Do X".data, "Do Y".data],
             needs_manual_review := true : ValidationResult }).criteria
            = parseAcceptanceCriteria c :=
  C6_validate_defers fsC6 ("TASK-001".data) ("src/impl".data) ("t0".data) _ (by decide)

/-- C7: for every status value outside the closed set, the update is
rejected with the `Invalid status` error before any move is attempted:
the filesystem component of the result is the input filesystem,
unchanged. -/
theorem C7_invalid_status_untouched (fs : FS) (task_id status : Str)
    (h : status ∉ statusList) :
    update_task_status fs task_id status
      = (fs, Except.error ("Invalid status: ".data ++ status)) := by
  unfold update_task_status
  rw [if_neg h]

/-- C7 witness: the theorem at the status string `archived`, outside
the closed set. -/
theorem C7_invalid_status_untouched_witness :
    update_task_status (fun _ => [(("TASK-001-a.md".data : Str), ("x".data : Str))])
        ("TASK-001".data) ("archived".data)
      = ((fun _ => [(("TASK-001-a.md".data : Str), ("x".data : Str))]),
         Except.error ("Invalid status: ".data ++ "archived".data)) :=
  C7_invalid_status_untouched _ _ _ (by decide)

/-- C10: the implementation-path argument (and the current time) have
no influence on any field of the validation result other than the
timestamp: two runs on the same store and task with different paths
and times agree on criteria, criteria_met, criteria_failed, warnings
and needs_manual_review, also when both fail the lookup. -/
theorem C10_path_noninterference (fs : FS) (task_id p1 p2 now1 now2 : Str) :
    (validate_implementation fs task_id p1 now1).map
        (fun r => (r.criteria, r.criteria_met, r.criteria_failed,
          r.warnings, r.needs_manual_review))
      = (validate_implementation fs task_id p2 now2).map
        (fun r => (r.criteria, r.criteria_met, r.criteria_failed,
          r.warnings, r.needs_manual_review)) := by
  unfold validate_implementation
  cases lookupTask fs task_id <;> rfl

end SpecManager

namespace SpecManager

/-- C9: for every status value, `list_tasks` yields precisely the
filenames of that directory that match the `TASK-*.md` convention,
lexicographically sorted, and an empty or missing directory (the empty
list in this model) yields the empty sequence — the function is total,
so no error is possible. -/
theorem C9_list_tasks_sorted_total (fs : FS) (status : Str) :
    List.Sorted (fun a b : Str => a ≤ b) (list_tasks fs status)
    ∧ (∀ n, n ∈ list_tasks fs status ↔
        n ∈ (fs status).map Prod.fst ∧ matchesTaskConvention n = true)
    ∧ (fs status = [] → list_tasks fs status = []) := by
  refine ⟨List.sorted_insertionSort _ _, fun n => ?_, fun h => ?_⟩
  · unfold list_tasks
    rw [(List.perm_insertionSort _ _).mem_iff, List.mem_filter]
  · unfold list_tasks
    rw [h]
    rfl

/-- C9 witness: a store with no directories at all (every status maps
to the empty directory) yields the empty sequence for a status that
has no directory. -/
theorem C9_list_tasks_sorted_total_witness :
    list_tasks (fun _ => []) ("archived".data) = [] :=
  (C9_list_tasks_sorted_total (fun _ => []) ("archived".data)).2.2 rfl

/-- C2: the claim states that with 0 total tasks the rendered report
contains the completion-percentage line showing 0.0%.  The code guards
the whole line behind `if total > 0`, so with 0 tasks the line is
omitted entirely: the report for an empty store contains neither
`0.0%` nor even the word `Completion`. -/
theorem C2_counterexample :
    containsSub (create_progress_report (fun _ => []) ("2026-01-02 03:04:05".data))
        ("0.0%".data) = false
    ∧ containsSub (create_progress_report (fun _ => []) ("2026-01-02 03:04:05".data))
        ("Completion".data) = false := by
  decide

/-- C2 (amended): with 0 total tasks the report omits the
completion-percentage line entirely (and raises no division error:
the report is exactly the header plus an all-zero summary); with 1
completed task of 4 total it contains the line showing 25.0%. -/
theorem C2_report_completion (fs0 fs1 : FS) (now : Str)
    (h0b : list_tasks fs0 ("backlog".data) = [])
    (h0i : list_tasks fs0 ("in-progress".data) = [])
    (h0c : list_tasks fs0 ("completed".data) = [])
    (h1b : (list_tasks fs1 ("backlog".data)).length = 2)
    (h1i : (list_tasks fs1 ("in-progress".data)).length = 1)
    (h1c : (list_tasks fs1 ("completed".data)).length = 1) :
    create_progress_report fs0 now
      = "# Task Progress Report\n\nGenerated: ".data ++ now
        ++ "\n\n## Summary\n- Backlog: 0 tasks\n- In Progress: 0 tasks\n- Completed: 0 tasks\n- Total: 0 tasks\n\n".data
    ∧ ∃ pre suf, create_progress_report fs1 now
        = pre ++ "**Completion: 25.0%**\n\n".data ++ suf := by
  constructor
  · unfold create_progress_report
    rw [h0b, h0i, h0c]
    simp only [List.length_nil]
    rw [show completionPart 0 (0 + 0 + 0) = [] by decide,
      show sectionInProgress ([] : List Str) = [] by decide,
      show sectionBacklog ([] : List Str) = [] by decide,
      show sectionCompleted ([] : List Str) = [] by decide]
    simp only [List.append_nil]
    rw [List.append_assoc]
    congr 1
  · unfold create_progress_report
    rw [h1b, h1i, h1c]
    refine ⟨"# Task Progress Report\n\nGenerated: ".data ++ now ++ "\n\n".data
        ++ reportSummary 2 1 1,
      sectionInProgress (list_tasks fs1 ("in-progress".data))
        ++ sectionBacklog (list_tasks fs1 ("backlog".data))
        ++ sectionCompleted (list_tasks fs1 ("completed".data)), ?_⟩
    rw [show completionPart 1 (2 + 1 + 1) = "**Completion: 25.0%**\n\n".data by decide]
    simp [List.append_assoc]

/-- C2 witness: the amended theorem at the empty store and at a store
holding 2 backlog, 1 in-progress and 1 completed task. -/
theorem C2_report_completion_witness :
    create_progress_report (fun _ => []) ("2026-01-02 03:04:05".data)
      = "# Task Progress Report\n\nGenerated: ".data ++ "2026-01-02 03:04:05".data
        ++ "\n\n## Summary\n- Backlog: 0 tasks\n- In Progress: 0 tasks\n- Completed: 0 tasks\n- Total: 0 tasks\n\n".data
    ∧ ∃ pre suf, create_progress_report fsC2 ("2026-01-02 03:04:05".data)
        = pre ++ "**Completion: 25.0%**\n\n".data ++ suf :=
  C2_report_completion (fun _ => []) fsC2 ("2026-01-02 03:04:05".data)
    (by decide) (by decide) (by decide) (by decide) (by decide) (by decide)

theorem removeFile_eq (l : List (Str × Str)) (name : Str) :
    removeFile l name = l.filter (fun e => e.1 != name) := rfl

/-- C8: for a task whose id matches exactly one file across the three
status directories, residing in directory A, moving it to B and then
back to A succeeds twice and afterwards the file sits in A with its
original name and content byte-identical, while B holds no file for
the task (neither a glob match for the id nor a file of that name). -/
theorem C8_move_roundtrip (fs : FS) (task_id A B name c : Str)
    (hA : A ∈ statusList) (hB : B ∈ statusList) (hAB : A ≠ B)
    (hu1 : (fs A).filter (fun e => matchesTaskGlob task_id e.1) = [(name, c)])
    (hu2 : ∀ s ∈ statusList, s ≠ A →
      (fs s).filter (fun e => matchesTaskGlob task_id e.1) = []) :
    ∃ fs1 m1 fs2 m2,
      move_task fs task_id B = (fs1, Except.ok m1)
      ∧ move_task fs1 task_id A = (fs2, Except.ok m2)
      ∧ (name, c) ∈ fs2 A
      ∧ (fs2 B).filter (fun e => matchesTaskGlob task_id e.1) = []
      ∧ ∀ e ∈ fs2 B, e.1 ≠ name := by
  have hBA : B ≠ A := Ne.symm hAB
  have hglob : matchesTaskGlob task_id name = true := by
    have hmem : (name, c) ∈ (fs A).filter (fun e => matchesTaskGlob task_id e.1) := by
      rw [hu1]
      exact List.mem_singleton_self _
    exact (List.mem_filter.mp hmem).2
  have hl1 : lookupTask fs task_id = some (A, name, c) :=
    lookup_of_unique fs task_id A name c hA hu1 hu2
  set fs1 : FS := setDir (setDir fs A (removeFile (fs A) name)) B
    (removeFile ((setDir fs A (removeFile (fs A) name)) B) name ++ [(name, c)])
    with hfs1def
  have hmv1 : move_task fs task_id B
      = (fs1, Except.ok ("Moved ".data ++ task_id ++ " from ".data ++ A
          ++ " to ".data ++ B)) := by
    unfold move_task
    rw [hl1]
  have happ1 : ∀ s, fs1 s = if s = B then removeFile (fs B) name ++ [(name, c)]
      else if s = A then removeFile (fs A) name else fs s := by
    intro s
    rw [hfs1def]
    by_cases hsB : s = B
    · subst hsB
      simp [setDir, hBA]
    · by_cases hsA : s = A
      · subst hsA
        simp [setDir, hAB]
      · simp [setDir, hsA, hsB]
  have hf1B : fs1 B = removeFile (fs B) name ++ [(name, c)] := by
    rw [happ1]
    simp
  have hf1A : fs1 A = removeFile (fs A) name := by
    rw [happ1]
    simp [hAB]
  have hf1other : ∀ s, s ≠ A → s ≠ B → fs1 s = fs s := by
    intro s h1 h2
    rw [happ1]
    simp [h1, h2]
  have hflt1 : (fs1 B).filter (fun e => matchesTaskGlob task_id e.1) = [(name, c)] := by
    rw [hf1B, List.filter_append, removeFile_eq, filter_swap, hu2 B hB hBA]
    simp [hglob]
  have hfltOther : ∀ s ∈ statusList, s ≠ B →
      (fs1 s).filter (fun e => matchesTaskGlob task_id e.1) = [] := by
    intro s hs hsB
    by_cases hsA : s = A
    · subst hsA
      rw [hf1A, removeFile_eq, filter_swap, hu1]
      simp
    · rw [hf1other s hsA hsB]
      exact hu2 s hs hsA
  have hl2 : lookupTask fs1 task_id = some (B, name, c) :=
    lookup_of_unique fs1 task_id B name c hB hflt1 hfltOther
  set fs2 : FS := setDir (setDir fs1 B (removeFile (fs1 B) name)) A
    (removeFile ((setDir fs1 B (removeFile (fs1 B) name)) A) name ++ [(name, c)])
    with hfs2def
  have hmv2 : move_task fs1 task_id A
      = (fs2, Except.ok ("Moved ".data ++ task_id ++ " from ".data ++ B
          ++ " to ".data ++ A)) := by
    unfold move_task
    rw [hl2]
  have happ2 : ∀ s, fs2 s = if s = A then removeFile (fs1 A) name ++ [(name, c)]
      else if s = B then removeFile (fs1 B) name else fs1 s := by
    intro s
    rw [hfs2def]
    by_cases hsA : s = A
    · subst hsA
      simp [setDir, hAB]
    · by_cases hsB : s = B
      · subst hsB
        simp [setDir, hsA]
      · simp [setDir, hsA, hsB]
  have hf2A : fs2 A = removeFile (fs1 A) name ++ [(name, c)] := by
    rw [happ2]
    simp [hAB]
  have hf2B : fs2 B = removeFile (fs1 B) name := by
    rw [happ2]
    simp [hBA]
  have hremB : (removeFile (fs B) name).filter (fun e => matchesTaskGlob task_id e.1) = [] := by
    rw [removeFile_eq, filter_swap, hu2 B hB hBA]
    rfl
  have hf2Bval : fs2 B = removeFile (removeFile (fs B) name) name := by
    rw [hf2B, hf1B]
    simp only [removeFile_eq, List.filter_append]
    simp
  refine ⟨fs1, _, fs2, _, hmv1, hmv2, ?_, ?_, ?_⟩
  · rw [hf2A]
    exact List.mem_append_right _ (List.mem_singleton_self _)
  · rw [hf2Bval, removeFile_eq, filter_swap, hremB]
    rfl
  · intro e he
    rw [hf2Bval] at he
    have hq := (List.mem_filter.mp he).2
    simpa [bne_iff_ne] using hq

/-- C8 witness: a store whose backlog holds the unique match
`TASK-001-a.md` (plus a non-matching file); moving `TASK-001` to
completed and back to backlog restores the file and leaves completed
without it. -/
theorem C8_move_roundtrip_witness :
    ∃ fs1 m1 fs2 m2,
      move_task fsC8 ("TASK-001".data) ("completed".data) = (fs1, Except.ok m1)
      ∧ move_task fs1 ("TASK-001".data) ("backlog".data) = (fs2, Except.ok m2)
      ∧ ("TASK-001-a.md".data, "hello".data) ∈ fs2 ("backlog".data)
      ∧ (fs2 ("completed".data)).filter
          (fun e => matchesTaskGlob ("TASK-001".data) e.1) = []
      ∧ ∀ e ∈ fs2 ("completed".data), e.1 ≠ "TASK-001-a.md".data :=
  C8_move_roundtrip fsC8 ("TASK-001".data) ("backlog".data) ("completed".data)
    ("TASK-001-a.md".data) ("hello".data)
    (by decide) (by decide) (by decide) (by decide) (by decide)

end SpecManager
